import Mathlib

/-!
Shallow embedding of `src/calculator.cpp` (an interactive console calculator).

Modelling conventions:
* C++ `double` values are modelled as `ℚ`.  The claims under study only involve
  exact arithmetic (`+`, `-`, `*`, `/` on small integers) and exact comparisons
  (`== 0`, `< 0`, integrality of the exponent), which `ℚ` reproduces faithfully.
* The library function `pow` from `<cmath>` is external to the repository; it is
  abstracted as an explicit parameter `powf : ℚ → ℚ → ℚ` wherever `execute`
  may call it.
* `throwException` prints a message and calls `terminate()`; a fatal error is
  modelled as `Except.error (CalcError.fatal msg)`, which aborts the rest of
  the computation, matching the fact that the process never continues past it.
* `cin` token extraction inside `startCalculation` is modelled as consuming a
  `List String` of whitespace-separated tokens (the function never inspects
  line boundaries).  The console driver in `main` also uses
  a discard-to-end-of-line `cin.ignore`, so for it the input is modelled line-structured as an
  `InStream` (remaining tokens of the current line, plus the further lines).
* A numeric read (`cin >> double` / `cin >> size_t`) is modelled by parsing the
  whole next token with `parseNum` / `parseNumNat`; these accept an optional
  sign plus digits (resp. plain digit strings), the fragment of the C++
  numeric grammar exercised by the specification.  A malformed numeric token
  makes the model answer `CalcError.badInput` (for `startCalculation`) or take
  the driver's documented retry path; partially-numeric tokens such as
  `12abc` are outside the model.
* The static counter `Calculator::numberOfSuccessfulCalculations` (a `double`)
  is threaded explicitly through `startCalculation`.
-/

/-- Outcome of a step that can terminate the process.  `fatal msg` models
`throwException(msg)` (message printed to `cerr`, then `terminate()`);
`badInput` is a modelling artifact for input streams on which the C++
extraction would fail or hang (never reached on the well-formed streams the
specification talks about). -/
inductive CalcError where
  | fatal (msg : String)
  | badInput
  deriving DecidableEq, Repr

instance {a b : Type} [DecidableEq a] [DecidableEq b] : DecidableEq (Except a b) := fun x y =>
  match x, y with
  | .ok u, .ok v => decidable_of_iff (u = v) (by simp)
  | .error u, .error v => decidable_of_iff (u = v) (by simp)
  | .ok _, .error _ => isFalse (by simp)
  | .error _, .ok _ => isFalse (by simp)

/-- The six concrete `Operation` subclasses of the source. -/
inductive OpKind where
  | add
  | subtract
  | multiply
  | divide
  | power
  | root
  deriving DecidableEq, Repr

/-- An `Operation` object: its dynamic type (subclass) plus the `name` and
`symbol` fields of the base class. -/
structure Operation where
  kind : OpKind
  name : String
  symbol : String
  deriving DecidableEq, Repr

/-- Models `Operation::assertValidity`: fatal if `name` or `symbol` is empty. -/
def Operation.assertValidity (o : Operation) : Except CalcError Unit :=
  if o.name = "" then .error (.fatal "Invalid operation name!")
  else if o.symbol = "" then .error (.fatal "Invalid operation symbol!")
  else .ok ()

/-- The `Operation(name, symbol)` constructor: `copyFrom` sets the fields and
runs `assertValidity`. -/
def Operation.construct (kind : OpKind) (name symbol : String) :
    Except CalcError Operation :=
  let o : Operation := { kind := kind, name := name, symbol := symbol }
  do o.assertValidity; pure o

/-- Models `createNew` of each subclass: a clone via the copy constructor, which runs
`copyFrom` and hence `assertValidity` on the copied fields. -/
def Operation.createNew (o : Operation) : Except CalcError Operation :=
  Operation.construct o.kind o.name o.symbol

/-- Models `(int)q == q` on a double: truncation towards zero leaves the value
unchanged exactly when it is integral, i.e. its denominator is 1.
(The C++ cast is undefined for huge magnitudes; the model abstracts that.) -/
def isIntValued (q : ℚ) : Bool := q.den = 1

/-- The virtual `execute(n1, n2)` of the six subclasses
(`AddOperation::execute` … `RootOperation::execute`), dispatching on the
dynamic type.  `powf` abstracts `pow` from `<cmath>`. -/
def Operation.execute (powf : ℚ → ℚ → ℚ) (o : Operation) (n1 n2 : ℚ) :
    Except CalcError ℚ :=
  match o.kind with
  | .add => .ok (n1 + n2)
  | .subtract => .ok (n1 - n2)
  | .multiply => .ok (n1 * n2)
  | .divide =>
      if n2 = 0 then .error (.fatal "Cannot divide by zero!")
      else .ok (n1 / n2)
  | .power =>
      if n1 = 0 ∧ n2 = 0 then .error (.fatal "Cannot raise 0 to the power of 0!")
      else .ok (powf n1 n2)
  | .root =>
      if n1 < 0 ∧ n2 < 0 then
        .error (.fatal "Cannot take negative root of negative number!")
      else if n1 < 0 ∧ ¬ isIntValued n2 then
        .error (.fatal "Cannot take fractional root of negative number")
      else .ok (powf n1 (1 / n2))

/-- The `AddOperation()` default constructor's result. -/
def AddOperation : Operation := { kind := .add, name := "Add", symbol := "+" }

/-- The `SubtractOperation()` default constructor's result. -/
def SubtractOperation : Operation :=
  { kind := .subtract, name := "Subtract", symbol := "-" }

/-- The `MultiplyOperation()` default constructor's result. -/
def MultiplyOperation : Operation :=
  { kind := .multiply, name := "Multiply", symbol := "*" }

/-- The `DivideOperation()` default constructor's result. -/
def DivideOperation : Operation :=
  { kind := .divide, name := "Divide", symbol := "/" }

/-- The `PowerOperation()` default constructor's result. -/
def PowerOperation : Operation :=
  { kind := .power, name := "Power", symbol := "**" }

/-- The `RootOperation()` default constructor's result. -/
def RootOperation : Operation := { kind := .root, name := "Root", symbol := "V" }

/-- The constant `MAX_OPERATORS`. -/
def MAX_OPERATORS : Nat := 16

/-- A `Calculator` object: `name`, the stored operations in insertion order
(`operations[0 .. numberOfSupportedOperations)`), and
`capacityForOperations`.  `numberOfSupportedOperations` is
`operations.length`. -/
structure Calculator where
  name : String
  operations : List Operation
  capacityForOperations : Nat
  deriving DecidableEq, Repr

/-- Models `Calculator::assertValidity`: fatal if the name is null/empty or the
capacity is zero. -/
def Calculator.assertValidity (c : Calculator) : Except CalcError Unit :=
  if c.name = "" then .error (.fatal "Invalid calculator name!")
  else if c.capacityForOperations = 0 then
    .error (.fatal "Capacity for operations cannot be zero!")
  else .ok ()

/-- Models `Calculator::copyFrom(name, n, cap, ops)`: stores the name, the first `n`
of the given operations, the capacity, then runs `assertValidity`.
(The C++ code copies `n` pointers out of the array `ops`; the model requires
the list to supply them via `List.take`.) -/
def Calculator.copyFrom (name : String) (n cap : Nat) (ops : List Operation) :
    Except CalcError Calculator :=
  let c : Calculator :=
    { name := name, operations := ops.take n, capacityForOperations := cap }
  do c.assertValidity; pure c

/-- The parameterized constructor `Calculator(name, n, ops)`:
`copyFrom(name, n, MAX_OPERATORS, ops)`. -/
def Calculator.construct (name : String) (n : Nat) (ops : List Operation) :
    Except CalcError Calculator :=
  Calculator.copyFrom name n MAX_OPERATORS ops

/-- The default constructor `Calculator()`: sets the name to the empty string,
an empty operation list with capacity 2, then runs `assertValidity`. -/
def Calculator.mkDefault : Except CalcError Calculator :=
  let c : Calculator := { name := "", operations := [], capacityForOperations := 2 }
  do c.assertValidity; pure c

/-- The copy constructor `Calculator(other)`: `copyFrom` with the other
object's fields. -/
def Calculator.copyCtor (other : Calculator) : Except CalcError Calculator :=
  Calculator.copyFrom other.name other.operations.length
    other.capacityForOperations other.operations

/-- The linear scan inside `Calculator::calculate`: first stored operation (in
insertion order) whose `getSymbol()` equals the token. -/
def lookupOperation : List Operation → String → Option Operation
  | [], _ => none
  | o :: os, s => if o.symbol = s then some o else lookupOperation os s

/-- Models `Calculator::calculate(n1, n2, op)`: scan the stored operations for the
symbol; `execute` on the first match, else return `0`. -/
def Calculator.calculate (powf : ℚ → ℚ → ℚ) (c : Calculator) (n1 n2 : ℚ)
    (op : String) : Except CalcError ℚ :=
  match lookupOperation c.operations op with
  | some o => o.execute powf n1 n2
  | none => .ok 0

/-- Models `Calculator::addOperation(op)`: fatal if the stored count equals the
capacity; otherwise appends `op->createNew()` and then evaluates the return
expression `*new Calculator()`, i.e. runs the default constructor.  On normal
return the result would be the updated calculator together with the
newly-constructed (leaked) default one. -/
def Calculator.addOperation (c : Calculator) (op : Operation) :
    Except CalcError (Calculator × Calculator) :=
  if c.operations.length = c.capacityForOperations then
    .error (.fatal "Capacity for operations exceeded!")
  else do
    let cl ← op.createNew
    let c2 : Calculator := { c with operations := c.operations ++ [cl] }
    let d ← Calculator.mkDefault
    pure (c2, d)

/-- The loop body of `Calculator::listSupportedOperations`: one output line
per stored operation. -/
def listLines : List Operation → List String
  | [] => []
  | o :: os => (o.symbol ++ " - " ++ o.name) :: listLines os

/-- Models `Calculator::listSupportedOperations()`: prints, for each stored operation
in insertion order, the line `symbol - name`; the returned list is the
sequence of printed lines (its only effect). -/
def Calculator.listSupportedOperations (c : Calculator) : List String :=
  listLines c.operations

/-- Value of one decimal digit character, `none` otherwise. -/
def digitVal (ch : Char) : Option Nat :=
  if ch.isDigit then some (ch.toNat - 48) else none

/-- Parse a nonempty all-digit character list as a natural number. -/
def digitsVal (cs : List Char) : Option Nat :=
  if !cs.isEmpty && cs.all Char.isDigit then
    some (cs.foldl (fun acc ch => acc * 10 + (ch.toNat - 48)) 0)
  else none

/-- Models `cin >> (double)` on one whole token: an optional leading `-`
followed by digits.  (The fragment of the C++ double grammar the spec
exercises; other tokens make the extraction fail.) -/
def parseNum (s : String) : Option ℚ :=
  match s.toList with
  | [] => none
  | ch :: rest =>
      if ch = '-' then (digitsVal rest).map (fun n => -(n : ℚ))
      else (digitsVal (ch :: rest)).map (fun n => (n : ℚ))

/-- Models `cin >> (size_t)` on one whole token: a plain digit string. -/
def parseNumNat (s : String) : Option Nat := digitsVal s.toList

/-- The `while(true)` loop of `Calculator::startCalculation`: given the
running `result` and the remaining tokens, read `op`; stop at `=`; otherwise
read `num2` and replace the running result with `calculate(result, num2, op)`.
Returns the final result and the unconsumed tokens. -/
def calcLoop (powf : ℚ → ℚ → ℚ) (c : Calculator) :
    ℚ → List String → Except CalcError (ℚ × List String)
  | _, [] => .error .badInput
  | result, t :: rest =>
      if t = "=" then .ok (result, rest)
      else
        match rest with
        | [] => .error .badInput
        | t2 :: rest2 =>
            match parseNum t2 with
            | none => .error .badInput
            | some num2 =>
                match c.calculate powf result num2 t with
                | .ok r2 => calcLoop powf c r2 rest2
                | .error e => .error e

/-- Models `Calculator::startCalculation()`: read the first operand into `result`,
run the loop until `=`, then increment the shared success counter and print
the result.  Returns `(printed result, new counter value, unconsumed
tokens)`; a fatal error aborts before any of the completion effects. -/
def Calculator.startCalculation (powf : ℚ → ℚ → ℚ) (c : Calculator)
    (input : List String) (counter : ℚ) :
    Except CalcError (ℚ × ℚ × List String) :=
  match input with
  | [] => .error .badInput
  | t :: rest =>
      match parseNum t with
      | none => .error .badInput
      | some result => do
          let (r, rest2) ← calcLoop powf c result rest
          pure (r, counter + 1, rest2)

/-- The console input as the driver sees it: the remaining tokens of the
current line, then the further lines (each a token list).
`cin >> token` skips line breaks; `cin.ignore(…, '\n')` discards the rest of
the current line. -/
structure InStream where
  cur : List String
  rest : List (List String)
  deriving DecidableEq, Repr

/-- One `cin >>` token extraction: next token of the current line, skipping to
later lines when the current one is exhausted; `none` at end of input. -/
def readToken : List String → List (List String) → Option (String × InStream)
  | t :: ts, rest => some (t, ⟨ts, rest⟩)
  | [], [] => none
  | [], l :: ls => readToken l ls

/-- Models `cin >>` on an `InStream`. -/
def InStream.read (s : InStream) : Option (String × InStream) :=
  readToken s.cur s.rest

/-- Models the discard-to-end-of-line `cin.ignore` call: drop the remainder
of the current line and stand at the start of the next one. -/
def InStream.discardLine (s : InStream) : InStream :=
  match s.rest with
  | [] => ⟨[], []⟩
  | l :: ls => ⟨l, ls⟩

/-- The prompt printed by each iteration of the operation-count loop. -/
def promptCount : String := "Enter number of operations: "

/-- The `do … while(true)` loop in `main` that reads
`numberOfOperations`: prompt; read an integer; on extraction failure report
`"Couldn't convert to number!"`, on a value above `MAX_OPERATORS` report
`"Exceeded operator capacity of 16!"`, in both cases clear the stream,
discard the line and retry; otherwise `break` (leaving the rest of the line
unread).  Returns `(count, stream after, printed lines)`; `fuel` bounds the
number of iterations, `none` when it (or the input) runs out. -/
def readOpCount : Nat → InStream → Option (Nat × InStream × List String)
  | 0, _ => none
  | fuel + 1, s =>
      match s.read with
      | none => none
      | some (t, s1) =>
          match parseNumNat t with
          | none =>
              (readOpCount fuel s1.discardLine).map
                (fun r =>
                  (r.1, r.2.1,
                    promptCount :: "Couldn't convert to number!" :: r.2.2))
          | some n =>
              if MAX_OPERATORS < n then
                (readOpCount fuel s1.discardLine).map
                  (fun r =>
                    (r.1, r.2.1,
                      promptCount :: "Exceeded operator capacity of 16!" :: r.2.2))
              else some (n, s1, [promptCount])

/-- The symbol-validity test in `main`'s batch-reading loop. -/
def validSymbol (t : String) : Bool :=
  t = "+" || t = "-" || t = "*" || t = "/" || t = "**" || t = "V"

/-- The inner `for` loop of the batch reader: read up to `n` tokens; on the
first invalid one print `"Invalid operator!"` and stop early.  Returns
`(all n were valid, collected symbols, stream, printed lines)`. -/
def readBatchTokens : Nat → InStream → Option (Bool × List String × InStream × List String)
  | 0, s => some (true, [], s, [])
  | n + 1, s =>
      match s.read with
      | none => none
      | some (t, s1) =>
          if validSymbol t then
            (readBatchTokens n s1).map
              (fun r => (r.1, t :: r.2.1, r.2.2.1, r.2.2.2))
          else some (false, [], s1, ["Invalid operator!"])

/-- The outer `while(true)` loop of `main`'s batch reader: run the inner
`for`; then unconditionally `cin.clear()` and discard the rest of the current
line; `break` when all `n` symbols were valid, else retry.  `fuel` bounds the
retries. -/
def readSymbolBatch : Nat → Nat → InStream → Option (List String × InStream × List String)
  | 0, _, _ => none
  | fuel + 1, n, s =>
      match readBatchTokens n s with
      | none => none
      | some (valid, syms, s1, msgs) =>
          let s2 := s1.discardLine
          if valid then some (syms, s2, msgs)
          else
            (readSymbolBatch fuel n s2).map
              (fun r => (r.1, r.2.1, msgs ++ r.2.2))

/-- Specification-side evaluator (§4.2 / §8 of the spec): a strict
left-to-right fold of `calculate` over the (operator, operand) pairs. -/
def leftFoldEval (powf : ℚ → ℚ → ℚ) (c : Calculator) :
    ℚ → List (String × ℚ) → Except CalcError ℚ
  | r, [] => .ok r
  | r, (op, m) :: rest =>
      match c.calculate powf r m op with
      | .ok r2 => leftFoldEval powf c r2 rest
      | .error e => .error e

/-- The token stream `op₁ m₁ op₂ m₂ …` produced by a list of
(operator token, operand token) pairs. -/
def pairStream (pairs : List (String × String)) : List String :=
  pairs.flatMap (fun p => [p.1, p.2])

/-- The spec's Calculator invariant (§3): non-empty name, positive capacity,
stored count within capacity. -/
def Calculator.Valid (c : Calculator) : Prop :=
  c.name ≠ "" ∧ 0 < c.capacityForOperations ∧
    c.operations.length ≤ c.capacityForOperations

instance (c : Calculator) : Decidable c.Valid := by
  unfold Calculator.Valid; infer_instance

/-- A trivial concrete stand-in for `pow`, used to instantiate `powf` in
witnesses. -/
def powZero : ℚ → ℚ → ℚ := fun _ _ => 0

/-- A calculator supporting `+` and `-`, as built by the parameterized
constructor. -/
def plusMinusCalc : Calculator :=
  { name := "Test", operations := [AddOperation, SubtractOperation],
    capacityForOperations := MAX_OPERATORS }

/-- A calculator supporting only `+`. -/
def plusCalc : Calculator :=
  { name := "Test", operations := [AddOperation],
    capacityForOperations := MAX_OPERATORS }

/-- A calculator supporting only `/`. -/
def divCalc : Calculator :=
  { name := "Test", operations := [DivideOperation],
    capacityForOperations := MAX_OPERATORS }

/-- A calculator supporting `+`, `-` and `*`. -/
def pmmCalc : Calculator :=
  { name := "Test",
    operations := [AddOperation, SubtractOperation, MultiplyOperation],
    capacityForOperations := MAX_OPERATORS }

/-- A calculator with room to spare: no stored operations, capacity 16. -/
def emptyCalc : Calculator :=
  { name := "Test", operations := [], capacityForOperations := MAX_OPERATORS }

/-- C2.  For every pair of operands `(a, b)`, each variant's `execute` returns
exactly the formula of §4.1's table (Add `a+b`, Subtract `a-b`, Multiply
`a*b`, Divide `a/b`, Power `a^b`, Root `a^(1/b)`, with `pow` abstracted as
`powf`) and raises a fatal error exactly under the table's error condition
(Divide: `b = 0`; Power: `a = 0 ∧ b = 0`; Root: `a < 0 ∧ b < 0`, or `a < 0`
and `b` not integer-valued); Add, Subtract and Multiply never raise. -/
theorem execute_matches_table (powf : ℚ → ℚ → ℚ) (a b : ℚ) :
    AddOperation.execute powf a b = .ok (a + b)
    ∧ SubtractOperation.execute powf a b = .ok (a - b)
    ∧ MultiplyOperation.execute powf a b = .ok (a * b)
    ∧ (b ≠ 0 → DivideOperation.execute powf a b = .ok (a / b))
    ∧ (b = 0 →
        DivideOperation.execute powf a b = .error (.fatal "Cannot divide by zero!"))
    ∧ (¬ (a = 0 ∧ b = 0) → PowerOperation.execute powf a b = .ok (powf a b))
    ∧ (a = 0 ∧ b = 0 →
        PowerOperation.execute powf a b =
          .error (.fatal "Cannot raise 0 to the power of 0!"))
    ∧ (¬ (a < 0 ∧ b < 0) → ¬ (a < 0 ∧ ¬ isIntValued b) →
        RootOperation.execute powf a b = .ok (powf a (1 / b)))
    ∧ ((a < 0 ∧ b < 0) ∨ (a < 0 ∧ ¬ isIntValued b) →
        ∃ m, RootOperation.execute powf a b = .error (.fatal m)) := by
  refine ⟨rfl, rfl, rfl, ?_, ?_, ?_, ?_, ?_, ?_⟩
  · intro h
    simp [Operation.execute, DivideOperation, h]
  · intro h
    simp [Operation.execute, DivideOperation, h]
  · intro h
    simp [Operation.execute, PowerOperation, h]
  · intro h
    simp [Operation.execute, PowerOperation, h]
  · intro h1 h2
    simp only [Operation.execute, RootOperation, if_neg h1, if_neg h2]
  · intro h
    by_cases h2 : a < 0 ∧ b < 0
    · exact ⟨"Cannot take negative root of negative number!",
        by simp [Operation.execute, RootOperation, h2]⟩
    · rcases h with h | h
      · exact absurd h h2
      · have hb : ¬ b < 0 := fun hb => h2 ⟨h.1, hb⟩
        exact ⟨"Cannot take fractional root of negative number",
          by simp [Operation.execute, RootOperation, h2, h.1, h.2, hb]⟩

/-- Witness for C2: the hypothesis-bearing conjuncts instantiated at concrete
operands. -/
theorem execute_matches_table_witness :
    DivideOperation.execute powZero 8 2 = .ok (8 / 2)
    ∧ DivideOperation.execute powZero 8 0 = .error (.fatal "Cannot divide by zero!")
    ∧ PowerOperation.execute powZero 2 3 = .ok (powZero 2 3)
    ∧ PowerOperation.execute powZero 0 0 =
        .error (.fatal "Cannot raise 0 to the power of 0!")
    ∧ RootOperation.execute powZero 4 2 = .ok (powZero 4 (1 / 2))
    ∧ (∃ m, RootOperation.execute powZero (-8) (-3) = .error (.fatal m)) :=
  ⟨(execute_matches_table powZero 8 2).2.2.2.1 (by norm_num),
   (execute_matches_table powZero 8 0).2.2.2.2.1 rfl,
   (execute_matches_table powZero 2 3).2.2.2.2.2.1 (by norm_num),
   (execute_matches_table powZero 0 0).2.2.2.2.2.2.1 ⟨rfl, rfl⟩,
   (execute_matches_table powZero 4 2).2.2.2.2.2.2.2.1 (by norm_num) (by norm_num),
   (execute_matches_table powZero (-8) (-3)).2.2.2.2.2.2.2.2
     (Or.inl ⟨by norm_num, by norm_num⟩)⟩

/-- C4.  On the input stream `8 / 0 =`, a calculator supporting `/`
terminates fatally at the divide-by-zero check: `startCalculation` yields the
fatal error and none of its completion effects (no incremented counter, no
printed result) occur, whatever the counter value was. -/
theorem startCalculation_div_zero_fatal (powf : ℚ → ℚ → ℚ) (k : ℚ) :
    divCalc.startCalculation powf ["8", "/", "0", "="] k =
      .error (.fatal "Cannot divide by zero!") := by
  simp [Calculator.startCalculation, calcLoop, Calculator.calculate,
    lookupOperation, Operation.execute, parseNum, digitsVal, divCalc,
    DivideOperation]

/-- C6.  The default `Calculator` constructor always terminates fatally with
`"Invalid calculator name!"` (it sets the name to `""` and then runs the
non-empty-name assertion), and consequently `addOperation` never completes
normally even when its capacity precondition holds and the given operation is
well-formed: after appending the clone it evaluates `*new Calculator()`. -/
theorem default_ctor_always_fatal :
    Calculator.mkDefault = .error (.fatal "Invalid calculator name!")
    ∧ ∀ (c : Calculator) (op : Operation),
        c.operations.length ≠ c.capacityForOperations →
        op.name ≠ "" → op.symbol ≠ "" →
        c.addOperation op = .error (.fatal "Invalid calculator name!") := by
  constructor
  · rfl
  · intro c op hcap hname hsym
    simp only [Calculator.addOperation, if_neg hcap, Operation.createNew,
      Operation.construct, Operation.assertValidity, if_neg hname,
      if_neg hsym, Calculator.mkDefault, Calculator.assertValidity]
    rfl

/-- Witness for C6: a calculator with one stored operation and capacity 16;
adding a well-formed `+` operation still dies with the default constructor's
message. -/
theorem default_ctor_always_fatal_witness :
    plusCalc.addOperation AddOperation =
      .error (.fatal "Invalid calculator name!") :=
  default_ctor_always_fatal.2 plusCalc AddOperation (by decide) (by decide)
    (by decide)

/-- C5 (code bug).  The claim says `addOperation` below capacity appends a
clone and returns normally; in the code the return expression
`*new Calculator()` runs the default constructor, whose empty-name assertion
terminates the process.  Evaluated at the failing input — an empty calculator
of capacity 16 and the `+` operation — the call is fatal instead of normal. -/
theorem addOperation_below_capacity_still_fatal :
    emptyCalc.addOperation AddOperation =
      .error (.fatal "Invalid calculator name!") := rfl

lemma calcLoop_pairStream (powf : ℚ → ℚ → ℚ) (c : Calculator)
    (pairs : List (String × String)) :
    ∀ r : ℚ, (∀ p ∈ pairs, p.1 ≠ "=" ∧ (parseNum p.2).isSome = true) →
      calcLoop powf c r (pairStream pairs ++ ["="]) =
        (leftFoldEval powf c r
            (pairs.map (fun p => (p.1, (parseNum p.2).getD 0)))).map
          (fun x => (x, ([] : List String))) := by
  induction pairs with
  | nil =>
      intro r _
      simp [pairStream, calcLoop, leftFoldEval, Except.map]
  | cons p rest ih =>
      intro r h
      obtain ⟨op, ms⟩ := p
      obtain ⟨hop, hnum⟩ := h (op, ms) (List.mem_cons_self _ _)
      obtain ⟨q, hq⟩ := Option.isSome_iff_exists.mp hnum
      have hrest := fun p2 hp2 => h p2 (List.mem_cons_of_mem _ hp2)
      have hstream : pairStream ((op, ms) :: rest) ++ ["="] =
          op :: (ms :: (pairStream rest ++ ["="])) := by
        simp [pairStream]
      rw [hstream]
      simp only [calcLoop, if_neg hop, hq]
      cases hcalc : c.calculate powf r q op with
      | ok r2 =>
          show calcLoop powf c r2 (pairStream rest ++ ["="]) = _
          rw [ih r2 hrest]
          simp [leftFoldEval, hq, hcalc]
      | error e =>
          simp [leftFoldEval, hq, hcalc, Except.map]

/-- C1.  `startCalculation` is a strict left-to-right fold: it reads a first
numeric token as the running result, then repeatedly reads an operator token
and a numeric operand and replaces the running result by
`calculate(result, operand, operator)` (i.e. `execute` of the looked-up
operation) until the `=` token; and on the stream `10 + 5 - 3 =` a calculator
supporting `+` and `-` prints 12 and bumps the shared success counter by
exactly 1. -/
theorem startCalculation_left_fold :
    (∀ (powf : ℚ → ℚ → ℚ) (c : Calculator) (s0 : String) (r : ℚ)
        (pairs : List (String × String)) (k : ℚ),
        parseNum s0 = some r →
        (∀ p ∈ pairs, p.1 ≠ "=" ∧ (parseNum p.2).isSome = true) →
        c.startCalculation powf (s0 :: (pairStream pairs ++ ["="])) k =
          (leftFoldEval powf c r
              (pairs.map (fun p => (p.1, (parseNum p.2).getD 0)))).map
            (fun x => (x, k + 1, ([] : List String))))
    ∧ (∀ (powf : ℚ → ℚ → ℚ) (k : ℚ),
        plusMinusCalc.startCalculation powf ["10", "+", "5", "-", "3", "="] k =
          .ok (12, k + 1, [])) := by
  constructor
  · intro powf c s0 r pairs k h0 hp
    simp only [Calculator.startCalculation, h0]
    rw [calcLoop_pairStream powf c pairs r hp]
    cases leftFoldEval powf c r
        (pairs.map (fun p => (p.1, (parseNum p.2).getD 0))) with
    | ok v => simp [Except.map]
    | error e => simp [Except.map]
  · intro powf k
    simp [Calculator.startCalculation, calcLoop, Calculator.calculate,
      lookupOperation, Operation.execute, parseNum, digitsVal, plusMinusCalc,
      AddOperation, SubtractOperation]
    norm_num

/-- Witness for C1: the fold theorem instantiated at a one-step stream
`7 + 2 =` on the `+`-only calculator, counter 3. -/
theorem startCalculation_left_fold_witness :
    plusCalc.startCalculation powZero ("7" :: (pairStream [("+", "2")] ++ ["="])) 3 =
      .ok (9, 4, []) := by
  have h := startCalculation_left_fold.1 powZero plusCalc "7" 7 [("+", "2")] 3
    (by decide) (by decide)
  rw [h]
  simp [leftFoldEval, Calculator.calculate, lookupOperation, plusCalc,
    AddOperation, Operation.execute, parseNum, digitsVal, Except.map]
  norm_num

/-- C3.  Operator lookup during evaluation is a linear scan of the stored
operations in insertion order returning the first exact symbol match; on no
match the step does not fail and yields `0`; a calculator supporting only `+`
given `5 * 2 =` completes successfully with result 0 (and the counter still
increments). -/
theorem lookup_unmatched_yields_zero :
    (∀ (ops : List Operation) (s : String),
        lookupOperation ops s = ops.find? (fun o => o.symbol == s))
    ∧ (∀ (powf : ℚ → ℚ → ℚ) (c : Calculator) (n1 n2 : ℚ) (op : String),
        lookupOperation c.operations op = none →
        c.calculate powf n1 n2 op = .ok 0)
    ∧ (∀ (powf : ℚ → ℚ → ℚ) (k : ℚ),
        plusCalc.startCalculation powf ["5", "*", "2", "="] k =
          .ok (0, k + 1, [])) := by
  refine ⟨?_, ?_, ?_⟩
  · intro ops s
    induction ops with
    | nil => rfl
    | cons o os ih =>
        by_cases h : o.symbol = s
        · simp [lookupOperation, List.find?, h]
        · have hbeq : (o.symbol == s) = false := beq_eq_false_iff_ne.mpr h
          simp [lookupOperation, List.find?, h, hbeq, ih]
  · intro powf c n1 n2 op h
    simp [Calculator.calculate, h]
  · intro powf k
    simp [Calculator.startCalculation, calcLoop, Calculator.calculate,
      lookupOperation, Operation.execute, parseNum, digitsVal, plusCalc,
      AddOperation]

/-- Witness for C3: looking up `*` on the `+`-only calculator finds nothing,
so the step's sub-result is 0. -/
theorem lookup_unmatched_yields_zero_witness :
    plusCalc.calculate powZero 5 2 "*" = .ok 0 :=
  lookup_unmatched_yields_zero.2.1 powZero plusCalc 5 2 "*" (by decide)

/-- C7.  Every calculator that a constructor actually returns satisfies the
invariant — non-empty name, positive capacity, stored count within capacity —
with capacity exactly `MAX_OPERATORS` (= 16) for the parameterized
constructor under its `n ≤ 16` precondition; the copy constructor reproduces
a valid calculator unchanged; and `addOperation` and the default constructor
preserve the invariant on any calculator they would return (they in fact
never return one, so nothing invalid ever exists). -/
theorem calculator_invariant :
    (∀ (name : String) (n : Nat) (ops : List Operation) (c : Calculator),
        n ≤ MAX_OPERATORS → Calculator.construct name n ops = .ok c →
        c.Valid ∧ c.capacityForOperations = MAX_OPERATORS)
    ∧ (∀ c : Calculator, c.Valid → Calculator.copyCtor c = .ok c)
    ∧ (∀ (c : Calculator) (op : Operation) (r : Calculator × Calculator),
        c.addOperation op = .ok r → r.1.Valid)
    ∧ (∀ c : Calculator, Calculator.mkDefault = .ok c → c.Valid) := by
  refine ⟨?_, ?_, ?_, ?_⟩
  · intro name n ops c hn hc
    by_cases hname : name = ""
    · simp [Calculator.construct, Calculator.copyFrom,
        Calculator.assertValidity, hname] at hc
    · simp only [Calculator.construct, Calculator.copyFrom,
        Calculator.assertValidity, MAX_OPERATORS] at hc hn ⊢
      simp only [if_neg hname] at hc
      norm_num at hc
      subst hc
      refine ⟨⟨hname, by norm_num, ?_⟩, rfl⟩
      simp only [List.length_take]
      omega
  · intro c hc
    obtain ⟨h1, h2, _⟩ := hc
    have h2' : c.capacityForOperations ≠ 0 := Nat.pos_iff_ne_zero.mp h2
    simp [Calculator.copyCtor, Calculator.copyFrom, Calculator.assertValidity,
      h1, h2', List.take_length]
  · intro c op r h
    unfold Calculator.addOperation at h
    split at h
    · exact absurd h (by simp)
    · cases hcl : op.createNew with
      | error e =>
          rw [hcl] at h
          simp [Bind.bind, Except.bind] at h
      | ok cl =>
          rw [hcl] at h
          simp [Bind.bind, Except.bind, Calculator.mkDefault,
            Calculator.assertValidity] at h
  · intro c h
    simp [Calculator.mkDefault, Calculator.assertValidity] at h

/-- Witness for C7: the parameterized constructor at a concrete name and two
operations yields `plusMinusCalc`, which is valid with capacity 16. -/
theorem calculator_invariant_witness :
    plusMinusCalc.Valid ∧ plusMinusCalc.capacityForOperations = MAX_OPERATORS :=
  calculator_invariant.1 "Test" 2 [AddOperation, SubtractOperation]
    plusMinusCalc (by decide) (by decide)

lemma listLines_spec (ops : List Operation) :
    (listLines ops).length = ops.length ∧
      ∀ i : Nat, (listLines ops)[i]? =
        (ops[i]?).map (fun o => o.symbol ++ " - " ++ o.name) := by
  induction ops with
  | nil => simp [listLines]
  | cons o os ih =>
      refine ⟨by simp [listLines, ih.1], ?_⟩
      intro i
      cases i with
      | zero => simp [listLines]
      | succ j => simp [listLines, ih.2 j]

/-- C9.  `listSupportedOperations` outputs one line per stored operation, in
insertion order, each of the exact form `symbol - name`, and nothing else (in
the model its value is exactly the list of printed lines); a calculator
constructed with `[+, -, *]` prints exactly `+ - Add`, `- - Subtract`,
`* - Multiply` in that order. -/
theorem listSupportedOperations_lines :
    (∀ (c : Calculator),
        (c.listSupportedOperations).length = c.operations.length
        ∧ ∀ i : Nat, (c.listSupportedOperations)[i]? =
            (c.operations[i]?).map (fun o => o.symbol ++ " - " ++ o.name))
    ∧ Calculator.construct "Test" 3
        [AddOperation, SubtractOperation, MultiplyOperation] = .ok pmmCalc
    ∧ pmmCalc.listSupportedOperations =
        ["+ - Add", "- - Subtract", "* - Multiply"] :=
  ⟨fun c => listLines_spec c.operations, by decide, by decide⟩

/-- C8.  The operation-count prompt loops until a valid value is read: a
non-numeric token is reported with `"Couldn't convert to number!"`, a value
above 16 with `"Exceeded operator capacity of 16!"`; both retry paths clear
the stream and discard the rest of the input line before re-prompting, and
the loop only ever completes with a count of at most 16 (shown both in
general and on the concrete stream `20 x / abc y / 5 z`). -/
theorem readOpCount_le_max :
    (∀ (fuel : Nat) (s : InStream) (n : Nat) (s2 : InStream)
        (msgs : List String),
        readOpCount fuel s = some (n, s2, msgs) → n ≤ MAX_OPERATORS)
    ∧ readOpCount 3 ⟨["20", "x"], [["abc", "y"], ["5", "z"]]⟩ =
        some (5, ⟨["z"], []⟩,
          [promptCount, "Exceeded operator capacity of 16!", promptCount,
            "Couldn't convert to number!", promptCount]) := by
  constructor
  · intro fuel
    induction fuel with
    | zero =>
        intro s n s2 msgs h
        simp [readOpCount] at h
    | succ fuel ih =>
        intro s n s2 msgs h
        simp only [readOpCount] at h
        cases hr : s.read with
        | none => rw [hr] at h; simp at h
        | some ts =>
            obtain ⟨t, s1⟩ := ts
            rw [hr] at h
            simp only at h
            cases hp : parseNumNat t with
            | none =>
                simp only [hp] at h
                cases h2 : readOpCount fuel s1.discardLine with
                | none => rw [h2] at h; simp at h
                | some r =>
                    rw [h2] at h
                    simp only [Option.map_some'] at h
                    injection h with h3
                    have h4 : r.1 = n := congrArg Prod.fst h3
                    exact h4 ▸ ih _ r.1 r.2.1 r.2.2 h2
            | some m =>
                simp only [hp] at h
                by_cases hm : MAX_OPERATORS < m
                · simp only [if_pos hm] at h
                  cases h2 : readOpCount fuel s1.discardLine with
                  | none => rw [h2] at h; simp at h
                  | some r =>
                      rw [h2] at h
                      simp only [Option.map_some'] at h
                      injection h with h3
                      have h4 : r.1 = n := congrArg Prod.fst h3
                      exact h4 ▸ ih _ r.1 r.2.1 r.2.2 h2
                · simp only [if_neg hm] at h
                  have hmn : m = n := by
                    injection h with h3
                    exact congrArg Prod.fst h3
                  omega
  · decide

/-- Witness for C8: the general bound applied to the concrete run, in which
the loop completed with count 5. -/
theorem readOpCount_le_max_witness : 5 ≤ MAX_OPERATORS :=
  readOpCount_le_max.1 3 ⟨["20", "x"], [["abc", "y"], ["5", "z"]]⟩ 5
    ⟨["z"], []⟩
    [promptCount, "Exceeded operator capacity of 16!", promptCount,
      "Couldn't convert to number!", promptCount]
    readOpCount_le_max.2

lemma readBatchTokens_all_valid :
    ∀ (ts junk : List String) (rest : List (List String)),
      (∀ t ∈ ts, validSymbol t = true) →
      readBatchTokens ts.length ⟨ts ++ junk, rest⟩ =
        some (true, ts, ⟨junk, rest⟩, []) := by
  intro ts
  induction ts with
  | nil =>
      intro junk rest _
      simp [readBatchTokens]
  | cons t ts ih =>
      intro junk rest h
      have ht := h t (by simp)
      have hts : ∀ x ∈ ts, validSymbol x = true := fun x hx => h x (by simp [hx])
      simp only [List.length_cons, readBatchTokens, List.cons_append,
        InStream.read, readToken, ht, if_pos]
      rw [ih junk rest hts]
      simp [Option.map]

/-- C10.  After the batch of `n` operation symbols is read successfully, the
driver unconditionally discards the remainder of the current input line
before entering the menu loop: the trailing `junk` tokens of that line never
reach the result, and the resulting stream position is the same as if the
line had ended right after the `n`-th symbol. -/
theorem batch_success_discards_line (n : Nat) (ts junk : List String)
    (rest : List (List String)) (hn : ts.length = n)
    (hv : ∀ t ∈ ts, validSymbol t = true) :
    readSymbolBatch 1 n ⟨ts ++ junk, rest⟩ =
        some (ts, InStream.discardLine ⟨junk, rest⟩, [])
      ∧ InStream.discardLine ⟨junk, rest⟩ = InStream.discardLine ⟨[], rest⟩ := by
  subst hn
  constructor
  · simp only [readSymbolBatch, readBatchTokens_all_valid ts junk rest hv]
    simp
  · rfl

/-- Witness for C10: a two-symbol batch `+ -` followed on the same line by
two junk tokens; the junk is dropped and the stream resumes at the next
line. -/
theorem batch_success_discards_line_witness :
    readSymbolBatch 1 2 ⟨["+", "-", "x", "y"], [["3"]]⟩ =
      some (["+", "-"], ⟨["3"], []⟩, []) :=
  (batch_success_discards_line 2 ["+", "-"] ["x", "y"] [["3"]] rfl
    (by decide)).1
